import Mathlib

/-!
Verification of the gold-trader automated trading engine
(`backend/trading_engine.py`, `backend/strategies/gold_strategy.py`,
`backend/utils/indicators.py`, `backend/database/models.py`).

The Python code is shallowly embedded: prices and monetary quantities are
rationals; pandas series values (which may be IEEE-754 NaN or infinities
after `diff`, `rolling` and division) are modelled by the inductive type
`PVal`; raised Python exceptions are modelled with `Except PyErr`.
-/

namespace GoldTrader

/-- A pandas/NumPy float value: NaN, +inf, -inf, or a finite number
(modelled as a rational). -/
inductive PVal : Type where
  | nan : PVal
  | pinf : PVal
  | ninf : PVal
  | val : ℚ → PVal
deriving DecidableEq

namespace PVal

/-- IEEE negation. -/
def neg : PVal → PVal
  | nan => nan
  | pinf => ninf
  | ninf => pinf
  | val q => val (-q)

/-- IEEE addition (NaN propagates; inf − inf is NaN). -/
def add : PVal → PVal → PVal
  | nan, _ => nan
  | _, nan => nan
  | pinf, ninf => nan
  | ninf, pinf => nan
  | pinf, _ => pinf
  | _, pinf => pinf
  | ninf, _ => ninf
  | _, ninf => ninf
  | val a, val b => val (a + b)

/-- IEEE subtraction. -/
def sub (a b : PVal) : PVal := add a (neg b)

/-- IEEE division restricted to the shapes the code produces:
finite/0 follows the sign of the numerator (0/0 is NaN),
finite/±inf is 0, ±inf/finite keeps the (signed) infinity. -/
def div : PVal → PVal → PVal
  | nan, _ => nan
  | _, nan => nan
  | pinf, pinf => nan
  | pinf, ninf => nan
  | ninf, pinf => nan
  | ninf, ninf => nan
  | pinf, val b => if b < 0 then ninf else pinf
  | ninf, val b => if b < 0 then pinf else ninf
  | val _, pinf => val 0
  | val _, ninf => val 0
  | val a, val b =>
      if b = 0 then
        if a = 0 then nan else if 0 < a then pinf else ninf
      else val (a / b)

/-- Python `<` on float values: any comparison with NaN is `False`. -/
def ltb : PVal → PVal → Bool
  | nan, _ => false
  | _, nan => false
  | pinf, _ => false
  | ninf, ninf => false
  | ninf, _ => true
  | val _, pinf => true
  | val _, ninf => false
  | val a, val b => decide (a < b)

/-- Python `>` on float values. -/
def gtb (a b : PVal) : Bool := ltb b a

/-- Python `==` on float values: NaN compares unequal to everything. -/
def eqb : PVal → PVal → Bool
  | val a, val b => decide (a = b)
  | pinf, pinf => true
  | ninf, ninf => true
  | _, _ => false

/-- Python `<=` on float values (False whenever NaN is involved). -/
def leb (a b : PVal) : Bool := ltb a b || eqb a b

end PVal

/-- `<` between a series value and a plain float threshold. -/
def pvalLtQ (a : PVal) (q : ℚ) : Bool := a.ltb (PVal.val q)

/-- `>` between a series value and a plain float threshold. -/
def pvalGtQ (a : PVal) (q : ℚ) : Bool := a.gtb (PVal.val q)

/-! ## Indicator Engine (`utils/indicators.py`) -/

/-- The tail of the ewm recurrence: each output is
α·price + (1−α)·previous output. -/
def emaGo (α : ℚ) (prev : ℚ) : List ℚ → List ℚ
  | [] => []
  | x :: xs =>
      let e := α * x + (1 - α) * prev
      e :: emaGo α e xs

/-- `data['close'].ewm(span=period, adjust=False).mean()`:
EMA[0] = price[0], EMA[i] = α·price[i] + (1−α)·EMA[i−1], α = 2/(period+1).
(`calculate_ema`, indicators.py lines 24-38.) -/
def calculate_ema (period : ℕ) : List ℚ → List ℚ
  | [] => []
  | p :: ps => p :: emaGo (2 / (period + 1)) p ps

/-- Trailing rolling mean with window `p` (pandas `rolling(window=p).mean()`
over a NaN-free series): NaN before index `p−1`, else the window average.
Value at index `i` of a series of length `n`. -/
def rollingMeanAt (p : ℕ) (xs : List ℚ) (i : ℕ) : PVal :=
  if i < xs.length ∧ p ≤ i + 1 then
    PVal.val ((((xs.drop (i + 1 - p)).take p).sum) / p)
  else PVal.nan

/-- The whole rolling-mean series (`calculate_sma`, indicators.py
lines 40-54, and the rolling means inside `calculate_rsi`). -/
def rollingMean (p : ℕ) (xs : List ℚ) : List PVal :=
  (List.range xs.length).map (rollingMeanAt p xs)

/-- `delta = close.diff()` followed by `delta.where(delta > 0, 0)`:
the leading NaN of `diff` fails the `> 0` test and becomes 0,
later entries are `max(delta, 0)`. (indicators.py line 65.) -/
def gainsOf : List ℚ → List ℚ
  | [] => []
  | c :: cs => 0 :: List.zipWith (fun a b => max (a - b) 0) cs (c :: cs)

/-- `(-delta.where(delta < 0, 0))`: leading NaN becomes 0, later entries
are `max(−delta, 0)`. (indicators.py line 66.) -/
def lossesOf : List ℚ → List ℚ
  | [] => []
  | c :: cs => 0 :: List.zipWith (fun a b => max (b - a) 0) cs (c :: cs)

/-- Average gain at index `i` (`gain` series of `calculate_rsi`). -/
def avgGainAt (period : ℕ) (closes : List ℚ) (i : ℕ) : PVal :=
  rollingMeanAt period (gainsOf closes) i

/-- Average loss at index `i` (`loss` series of `calculate_rsi`). -/
def avgLossAt (period : ℕ) (closes : List ℚ) (i : ℕ) : PVal :=
  rollingMeanAt period (lossesOf closes) i

/-- RSI value at index `i`: `rs = gain/loss`, `rsi = 100 − 100/(1+rs)`,
with IEEE semantics (there is no explicit zero-division guard in the
source; `calculate_rsi`, indicators.py lines 56-75). -/
def rsiAt (period : ℕ) (closes : List ℚ) (i : ℕ) : PVal :=
  let rs := (avgGainAt period closes i).div (avgLossAt period closes i)
  (PVal.val 100).sub ((PVal.val 100).div ((PVal.val 1).add rs))

/-- The RSI series returned by `calculate_rsi` (same length as the input). -/
def calculate_rsi (period : ℕ) (closes : List ℚ) : List PVal :=
  (List.range closes.length).map (rsiAt period closes)

/-! ## Trend classification (`GoldStrategy.check_trend`,
gold_strategy.py lines 62-90) -/

/-- Last element of the EMA series, i.e. `.iloc[-1]`; `none` models the
IndexError raised on an empty series. -/
def emaLast (period : ℕ) (closes : List ℚ) : Option ℚ :=
  (calculate_ema period closes).getLast?

/-- `check_trend`: strict chain EMA(9) > EMA(21) > EMA(50) at the latest
bar gives UPTREND, the reversed strict chain gives DOWNTREND, anything
else (all ties included) gives NEUTRAL. `none` models the exception
path on an empty series (re-raised by the function). -/
def check_trend (closes : List ℚ) : Option String :=
  match emaLast 9 closes, emaLast 21 closes, emaLast 50 closes with
  | some s, some m, some l =>
      if s > m ∧ m > l then some "UPTREND"
      else if s < m ∧ m < l then some "DOWNTREND"
      else some "NEUTRAL"
  | _, _, _ => none

/-! ## Data model (`database/models.py`) and Python error model -/

/-- A raised Python exception, as far as the engine distinguishes them. -/
inductive PyErr : Type where
  | nameError : PyErr
  | attributeError : PyErr
  | indexError : PyErr
deriving DecidableEq

/-- A `Strategy` row (models.py lines 62-91). -/
structure Strategy : Type where
  id : ℕ
  user_id : ℕ
  name : String
  symbol : String
  timeframe : String
  is_active : Bool
  position_size : ℚ
  stop_loss_percent : ℚ
  take_profit_percent : ℚ
  max_daily_loss : ℚ
  fast_ema : ℕ
  slow_ema : ℕ
  rsi_period : ℕ
  rsi_overbought : ℚ
  rsi_oversold : ℚ
deriving DecidableEq

/-- A `Trade` row (models.py lines 38-60); the table records no side.
Timestamps are abstract day numbers (day 0 is a Monday, matching
`date.weekday()` = 0 on Mondays). -/
structure Trade : Type where
  user_id : Option ℕ
  strategy_id : Option ℕ
  symbol : String
  order_type : String
  status : String
  entry_price : ℚ
  exit_price : Option ℚ
  quantity : ℚ
  take_profit : Option ℚ
  stop_loss : Option ℚ
  profit_loss : Option ℚ
  entry_time : ℕ
  exit_time : Option ℕ
deriving DecidableEq

/-- The members of the `OrderStatus` enum (models.py lines 15-19).
There is no `CLOSED` member. -/
def orderStatusMembers : List String :=
  ["PENDING", "EXECUTED", "CANCELLED", "FAILED"]

/-- Python attribute access `OrderStatus.<name>`: raises AttributeError
when the enum has no such member. -/
def orderStatusAttr (name : String) : Except PyErr String :=
  if name ∈ orderStatusMembers then Except.ok name
  else Except.error PyErr.attributeError

/-- The names bound at module level in `trading_engine.py` by its import
statements (lines 1-11) and the class statement. `timedelta` is not
among them: line 4 imports only `datetime` from the datetime module. -/
def tradingEngineModuleNames : List String :=
  ["threading", "time", "pd", "datetime", "Dict", "List", "Optional",
   "get_db_session", "Trade", "Strategy", "User", "OrderType", "OrderStatus",
   "PuPrimeAPI", "TechnicalIndicators", "Config", "logger", "log_trade",
   "log_strategy", "log_error", "TradingEngine"]

/-- `Config.MAX_WEEKLY_LOSS` (config.py line 29, default 10). -/
def MAX_WEEKLY_LOSS : ℚ := 10

/-- Price history returned by `broker.get_market_data`, one list per
column. A constructed `Bars` always carries all six columns, so the
`validate_data` check of `TechnicalIndicators.__init__` passes. -/
structure Bars : Type where
  timestamps : List ℕ
  opens : List ℚ
  highs : List ℚ
  lows : List ℚ
  closes : List ℚ
  volumes : List ℚ

/-- The broker collaborator, as consumed by the engine loop. -/
structure Broker : Type where
  price : String → ℚ
  marketData : String → String → Bars
  balance : ℚ

/-- The store contents the engine loop reads and writes. -/
structure EngineDB : Type where
  strategies : List Strategy
  trades : List Trade

namespace TradingEngine

/-- `_calculate_daily_loss` (trading_engine.py lines 293-301): sum of
`profit_loss or 0` over the strategy's trades with `exit_time >= today`
(rows with NULL `exit_time` fail the SQL comparison). -/
def calculate_daily_loss (s : Strategy) (trades : List Trade)
    (todayStart : ℕ) : ℚ :=
  ((trades.filter (fun t =>
      t.strategy_id == some s.id &&
      match t.exit_time with
      | some et => decide (todayStart ≤ et)
      | none => false)).map (fun t => t.profit_loss.getD 0)).sum

/-- `_calculate_weekly_loss` (trading_engine.py lines 303-314). Its first
statement evaluates `timedelta(days=today.weekday())`, and `timedelta`
is not a bound name of the module, so the call raises NameError before
any query runs; the arithmetic in the other branch is what the source
would compute if the name resolved. -/
def calculate_weekly_loss (s : Strategy) (trades : List Trade)
    (todayStart : ℕ) : Except PyErr ℚ :=
  if "timedelta" ∈ tradingEngineModuleNames then
    let monday := todayStart - todayStart % 7
    Except.ok (((trades.filter (fun t =>
        t.strategy_id == some s.id &&
        match t.exit_time with
        | some et => decide (monday ≤ et)
        | none => false)).map (fun t => t.profit_loss.getD 0)).sum)
  else Except.error PyErr.nameError

/-- The body of `_check_risk_limits` (lines 242-262) before its
exception handler. -/
def riskLimitsExc (s : Strategy) (trades : List Trade)
    (todayStart : ℕ) : Except PyErr Bool := do
  let daily := calculate_daily_loss s trades todayStart
  if s.max_daily_loss ≤ |daily| then
    return false
  let weekly ← calculate_weekly_loss s trades todayStart
  if MAX_WEEKLY_LOSS ≤ |weekly| then
    return false
  return true

/-- `_check_risk_limits`: any exception is caught and the check returns
False (deny trading). -/
def check_risk_limits (s : Strategy) (trades : List Trade)
    (todayStart : ℕ) : Bool :=
  match riskLimitsExc s trades todayStart with
  | Except.ok b => b
  | Except.error _ => false

/-- `_calculate_position_size` (lines 264-277): note the denominator is
the bare `strategy.stop_loss_percent`, not `price · slp/100`. -/
def calculate_position_size (s : Strategy) (account_balance : ℚ) : ℚ :=
  let risk_amount := account_balance * (s.stop_loss_percent / 100)
  min s.position_size (risk_amount / s.stop_loss_percent)

/-- `_calculate_stop_loss` (lines 279-284). -/
def calculate_stop_loss (current_price : ℚ) (s : Strategy)
    (signal : String) : ℚ :=
  if signal = "BUY" then current_price * (1 - s.stop_loss_percent / 100)
  else current_price * (1 + s.stop_loss_percent / 100)

/-- `_calculate_take_profit` (lines 286-291). -/
def calculate_take_profit (current_price : ℚ) (s : Strategy)
    (signal : String) : ℚ :=
  if signal = "BUY" then current_price * (1 + s.take_profit_percent / 100)
  else current_price * (1 - s.take_profit_percent / 100)

/-- The indicator values `_process_strategies` puts in its dict
(lines 81-85): the `.iloc[-1]` of each series. -/
structure Indicators : Type where
  fast_ema : ℚ
  slow_ema : ℚ
  rsi : PVal

/-- Building the indicators dict; `.iloc[-1]` raises IndexError on an
empty series (caught by the per-strategy handler). -/
def computeIndicators (s : Strategy) (bars : Bars) :
    Except PyErr Indicators :=
  match emaLast s.fast_ema bars.closes, emaLast s.slow_ema bars.closes,
      (calculate_rsi s.rsi_period bars.closes).getLast? with
  | some f, some sl, some r => Except.ok ⟨f, sl, r⟩
  | _, _, _ => Except.error PyErr.indexError

/-- `_generate_signal` (lines 97-122): RSI thresholds (NaN comparisons
are False) combined with the EMA crossover. -/
def generate_signal (s : Strategy) (ind : Indicators) : Option String :=
  let oversold := pvalLtQ ind.rsi s.rsi_oversold
  let overbought := pvalGtQ ind.rsi s.rsi_overbought
  let ema_bullish := decide (ind.fast_ema > ind.slow_ema)
  let ema_bearish := decide (ind.fast_ema < ind.slow_ema)
  if oversold && ema_bullish then some "BUY"
  else if overbought && ema_bearish then some "SELL"
  else none

/-- Outcome of `_execute_trade` (lines 124-182): whether
`broker.place_order` ran, and the `Trade` row inserted if it did. -/
structure ExecResult : Type where
  orderPlaced : Bool
  newTrade : Option Trade
deriving DecidableEq

/-- `_execute_trade`: returns without ordering when the risk check
denies; otherwise sizes the position, prices the brackets, places the
order and records the trade. -/
def execute_trade (s : Strategy) (signal : String) (broker : Broker)
    (trades : List Trade) (todayStart now : ℕ) : ExecResult :=
  if check_risk_limits s trades todayStart = false then ⟨false, none⟩
  else
    let position_size := calculate_position_size s broker.balance
    let current_price := broker.price s.symbol
    let sl := calculate_stop_loss current_price s signal
    let tp := calculate_take_profit current_price s signal
    ⟨true, some
      { user_id := some s.user_id
        strategy_id := some s.id
        symbol := s.symbol
        order_type := "MARKET"
        status := "EXECUTED"
        entry_price := current_price
        exit_price := none
        quantity := position_size
        take_profit := some tp
        stop_loss := some sl
        profit_loss := none
        entry_time := now
        exit_time := none }⟩

/-- What one iteration of `_process_strategies` did for one strategy. -/
structure StratResult : Type where
  sid : ℕ
  signal : Option String
  orderPlaced : Bool
deriving DecidableEq

/-- `_process_strategies` (lines 61-95): for every active strategy,
fetch market data, build indicators, generate a signal and, when a
signal exists, run `_execute_trade`; per-strategy exceptions are caught
and that strategy is skipped. It consults no open-position state. -/
def process_strategies (db : EngineDB) (broker : Broker)
    (todayStart now : ℕ) : List StratResult :=
  (db.strategies.filter (fun s => s.is_active)).map (fun s =>
    match computeIndicators s (broker.marketData s.symbol s.timeframe) with
    | Except.error _ => ⟨s.id, none, false⟩
    | Except.ok ind =>
        match generate_signal s ind with
        | some sig =>
            ⟨s.id, some sig,
              (execute_trade s sig broker db.trades todayStart now).orderPlaced⟩
        | none => ⟨s.id, none, false⟩)

/-- Line 218: `profit_loss = (exit_price - trade.entry_price) *
trade.quantity`, with no dependence on the order's side. -/
def trade_profit_loss (t : Trade) (exit_price : ℚ) : ℚ :=
  (exit_price - t.entry_price) * t.quantity

/-- The database transaction inside `_close_trade` (lines 221-226): set
exit fields, then assign `trade.status = OrderStatus.CLOSED` — an
attribute access that raises because the enum lacks that member — then
commit. -/
def close_trade_txn (t : Trade) (exit_price : ℚ) (now : ℕ) :
    Except PyErr Trade := do
  let t1 : Trade :=
    { t with exit_price := some exit_price
             exit_time := some now
             profit_loss := some (trade_profit_loss t exit_price) }
  let st ← orderStatusAttr "CLOSED"
  return { t1 with status := st }

/-- Outcome of `_close_trade` (lines 211-240). -/
structure CloseOutcome : Type where
  brokerCloseRequested : Bool
  row : Trade
  errorLogged : Bool
deriving DecidableEq

/-- `_close_trade`: the broker close request happens first; if the
transaction raises, the context manager rolls the session back, so the
stored row keeps its previous contents, and the handler logs the error. -/
def close_trade (t : Trade) (exit_price : ℚ) (now : ℕ) : CloseOutcome :=
  match close_trade_txn t exit_price now with
  | Except.ok t' => ⟨true, t', false⟩
  | Except.error _ => ⟨true, t, true⟩

/-- Python truthiness of an optional float column: NULL and 0.0 are
falsy. -/
def optQTruthy : Option ℚ → Bool
  | none => false
  | some q => decide (q ≠ 0)

/-- `_should_close_trade` (lines 203-209): close when the price is at or
below a truthy stop, or at or above a truthy target — the same
comparisons for every trade, with no side to branch on. -/
def should_close_trade (t : Trade) (current_price : ℚ) : Bool :=
  (optQTruthy t.stop_loss && decide (current_price ≤ t.stop_loss.getD 0)) ||
  (optQTruthy t.take_profit && decide (t.take_profit.getD 0 ≤ current_price))

/-- The open-position query of `_monitor_trades` and
`get_active_trades`: `status == EXECUTED and exit_time is NULL`. -/
def isOpenTrade (t : Trade) : Bool :=
  t.status == "EXECUTED" && t.exit_time == none

/-- Result of one `_monitor_trades` sweep: the stored rows afterwards
and the symbols for which a broker close was requested. -/
structure SweepResult : Type where
  trades : List Trade
  brokerCloses : List String
deriving DecidableEq

/-- `_monitor_trades` (lines 184-201): query open trades, fetch each
one's price, and run `_close_trade` on those crossing a bracket. -/
def monitor_trades (trades : List Trade) (price : String → ℚ)
    (now : ℕ) : SweepResult :=
  { trades := trades.map (fun t =>
      if isOpenTrade t && should_close_trade t (price t.symbol) then
        (close_trade t (price t.symbol) now).row
      else t)
    brokerCloses := (trades.filter (fun t =>
      isOpenTrade t && should_close_trade t (price t.symbol))).map
        (fun t => t.symbol) }

/-- The mutable fields `__init__` sets on the singleton (lines 24-31);
the worker thread is abstracted to an identifier. -/
structure EngineState : Type where
  running : Bool
  strategies : List (ℕ × Strategy)
  active_trades : List (ℕ × Trade)
  workerThread : Option ℕ
deriving DecidableEq

/-- `start` (lines 33-40): guarded by the running flag; spawning the
worker is modelled by storing a fresh thread identifier. -/
def start (s : EngineState) (newThreadId : ℕ) : EngineState :=
  if s.running = false then
    { s with running := true, workerThread := some newThreadId }
  else s

end TradingEngine

/-! ## Remaining indicators used by `GoldStrategy`
(`utils/indicators.py` lines 77-184) -/

/-- `calculate_macd` (indicators.py lines 77-102): MACD line, signal
line, histogram. The signal line is the same `ewm(span, adjust=False)`
recurrence applied to the MACD line. -/
def calculate_macd (fast_period slow_period signal_period : ℕ)
    (closes : List ℚ) : List ℚ × List ℚ × List ℚ :=
  let fast_ema := calculate_ema fast_period closes
  let slow_ema := calculate_ema slow_period closes
  let macd_line := List.zipWith (fun a b => a - b) fast_ema slow_ema
  let signal_line := calculate_ema signal_period macd_line
  let histogram := List.zipWith (fun a b => a - b) macd_line signal_line
  (macd_line, signal_line, histogram)

/-- The middle Bollinger band (indicators.py line 116): the SMA of the
closes. The upper and lower bands add/subtract `std_dev` rolling sample
standard deviations (an irrational quantity); no verified code path
reads them, so only the middle band is embedded. -/
def calculate_bollinger_middle (period : ℕ) (closes : List ℚ) :
    List PVal :=
  rollingMean period closes

/-- `rolling(window=w, center=True).max()` at index `i`: pandas computes
the trailing window and shifts the result by `(w−1)/2`, so the value at
`i` is the max over positions `[i+off−w+1, i+off]` with
`off = (w−1)/2`, NaN when that trailing window is incomplete. -/
def centeredRollingMaxAt (w : ℕ) (xs : List ℚ) (i : ℕ) : PVal :=
  let off := (w - 1) / 2
  let j := i + off
  if j < xs.length ∧ w ≤ j + 1 then
    match ((xs.drop (j + 1 - w)).take w).max? with
    | some m => PVal.val m
    | none => PVal.nan
  else PVal.nan

/-- `rolling(window=w, center=True).min()` at index `i`. -/
def centeredRollingMinAt (w : ℕ) (xs : List ℚ) (i : ℕ) : PVal :=
  let off := (w - 1) / 2
  let j := i + off
  if j < xs.length ∧ w ≤ j + 1 then
    match ((xs.drop (j + 1 - w)).take w).min? with
    | some m => PVal.val m
    | none => PVal.nan
  else PVal.nan

/-- `Series.max()` of a slice: NaN entries are skipped; all-NaN gives
NaN. -/
def sliceMaxVal (l : List PVal) : PVal :=
  match (l.filterMap (fun v =>
      match v with | PVal.val q => some q | _ => none)).max? with
  | some m => PVal.val m
  | none => PVal.nan

/-- `Series.min()` of a slice, skipping NaN. -/
def sliceMinVal (l : List PVal) : PVal :=
  match (l.filterMap (fun v =>
      match v with | PVal.val q => some q | _ => none)).min? with
  | some m => PVal.val m
  | none => PVal.nan

/-- `calculate_support_resistance` (indicators.py lines 128-162): local
extrema of the centered rolling max/min over `range(window,
len-window)`, appended only when no existing level is within the
relative `threshold` (NaN comparisons are False, so NaN rolling values
are never accepted as levels). -/
def calculate_support_resistance (window : ℕ) (threshold : ℚ)
    (highs lows : List ℚ) : List ℚ × List ℚ :=
  let highsC := (List.range highs.length).map (centeredRollingMaxAt window highs)
  let lowsC := (List.range lows.length).map (centeredRollingMinAt window lows)
  let resistance_levels :=
    (List.range' window (highs.length - 2 * window)).foldl
      (fun levels i =>
        match highsC.getD i PVal.nan with
        | PVal.val h =>
            if (PVal.val h).eqb
                (sliceMaxVal ((highsC.drop (i - window)).take (2 * window))) then
              if levels.any (fun level => |level - h| / h < threshold) then
                levels
              else levels ++ [h]
            else levels
        | _ => levels) []
  let support_levels :=
    (List.range' window (lows.length - 2 * window)).foldl
      (fun levels i =>
        match lowsC.getD i PVal.nan with
        | PVal.val l =>
            if (PVal.val l).eqb
                (sliceMinVal ((lowsC.drop (i - window)).take (2 * window))) then
              if levels.any (fun level => |level - l| / l < threshold) then
                levels
              else levels ++ [l]
            else levels
        | _ => levels) []
  (support_levels, resistance_levels)

/-! ## Python `round(x, 2)` -/

/-- Round-half-even to an integer, as Python's `round` does. -/
def roundHalfEven (x : ℚ) : ℤ :=
  let f := Int.floor x
  let frac := x - f
  if frac < 1 / 2 then f
  else if 1 / 2 < frac then f + 1
  else if Even f then f else f + 1

/-- Python `round(x, 2)`. -/
def pyRound2 (x : ℚ) : ℚ := (roundHalfEven (x * 100) : ℚ) / 100

/-! ## `GoldStrategy` (`strategies/gold_strategy.py`) -/

/-- The configuration fields `GoldStrategy.__init__` keeps
(gold_strategy.py lines 20-26). -/
structure GoldConfig : Type where
  position_size : ℚ
  stop_loss_percent : ℚ
  take_profit_percent : ℚ
deriving DecidableEq

/-- An open position as reported by `broker.get_open_positions()`. -/
structure BrokerPosition : Type where
  id : ℕ
  side : String
  entry_price : ℚ
deriving DecidableEq

/-- The broker data `GoldStrategy` consumes. -/
structure GoldBroker : Type where
  account_balance : ℚ
  gold_price : ℚ
  nextPositionId : ℕ

namespace GoldStrategy

/-- `calculate_position_size` (gold_strategy.py lines 37-60):
min(risk_amount / (price · slp/100), lot cap), then `round(·, 2)`. -/
def calculate_position_size (cfg : GoldConfig)
    (account_balance current_price : ℚ) : ℚ :=
  let risk_amount := account_balance * (cfg.stop_loss_percent / 100)
  pyRound2 (min (risk_amount / (current_price * cfg.stop_loss_percent / 100))
    cfg.position_size)

/-- `check_support_resistance` (lines 92-114): nearest support below and
nearest resistance above the price, `None` when the side is empty. -/
def check_support_resistance (price : ℚ) (bars : Bars) :
    Option ℚ × Option ℚ :=
  let sr := calculate_support_resistance 20 (2 / 100) bars.highs bars.lows
  let supports_below := sr.1.filter (fun s => s < price)
  let resistances_above := sr.2.filter (fun r => price < r)
  (supports_below.max?, resistances_above.min?)

/-- `check_entry_conditions` (lines 116-177): BUY on UPTREND, RSI<70,
MACD above signal, close above the middle band, and a support below;
SELL mirrored; otherwise no signal. Raises on an empty series. -/
def check_entry_conditions (bars : Bars) :
    Except PyErr (Bool × Option String) :=
  match bars.closes.getLast?, check_trend bars.closes with
  | some current_price, some trend =>
      let current_rsi := (calculate_rsi 14 bars.closes).getLast?.getD PVal.nan
      let macd := calculate_macd 12 26 9 bars.closes
      let current_macd := macd.1.getLast?.getD 0
      let current_signal := macd.2.1.getLast?.getD 0
      let bb_middle_last :=
        (calculate_bollinger_middle 20 bars.closes).getLast?.getD PVal.nan
      let sr := check_support_resistance current_price bars
      let buy := (trend == "UPTREND") && pvalLtQ current_rsi 70
          && decide (current_signal < current_macd)
          && PVal.gtb (PVal.val current_price) bb_middle_last
          && sr.1.isSome
      let sell := (trend == "DOWNTREND") && pvalGtQ current_rsi 30
          && decide (current_macd < current_signal)
          && PVal.ltb (PVal.val current_price) bb_middle_last
          && sr.2.isSome
      if buy then Except.ok (true, some "BUY")
      else if sell then Except.ok (true, some "SELL")
      else Except.ok (false, none)
  | _, _ => Except.error PyErr.indexError

/-- `calculate_exit_prices` (lines 179-199), with Python `round(·, 2)`. -/
def calculate_exit_prices (cfg : GoldConfig) (entry_price : ℚ)
    (side : String) : ℚ × ℚ :=
  if side = "BUY" then
    (pyRound2 (entry_price * (1 - cfg.stop_loss_percent / 100)),
     pyRound2 (entry_price * (1 + cfg.take_profit_percent / 100)))
  else
    (pyRound2 (entry_price * (1 + cfg.stop_loss_percent / 100)),
     pyRound2 (entry_price * (1 - cfg.take_profit_percent / 100)))

/-- `check_exit_conditions` (lines 264-301): RSI/MACD reversal or a
price beyond the percent stop, by side. -/
def check_exit_conditions (cfg : GoldConfig) (pos : BrokerPosition)
    (bars : Bars) : Except PyErr Bool :=
  match bars.closes.getLast? with
  | none => Except.error PyErr.indexError
  | some current_price =>
      let current_rsi := (calculate_rsi 14 bars.closes).getLast?.getD PVal.nan
      let macd := calculate_macd 12 26 9 bars.closes
      let ml := macd.1.getLast?.getD 0
      let sl := macd.2.1.getLast?.getD 0
      if pos.side = "BUY" then
        Except.ok (pvalGtQ current_rsi 70 || decide (ml < sl) ||
          decide (current_price <
            pos.entry_price * (1 - cfg.stop_loss_percent / 100)))
      else if pos.side = "SELL" then
        Except.ok (pvalLtQ current_rsi 30 || decide (sl < ml) ||
          decide (pos.entry_price * (1 + cfg.stop_loss_percent / 100) <
            current_price))
      else Except.ok false

/-- `execute_trade` (lines 201-262): size the position, bracket the
current gold price, place the order (one new broker position) and
insert the `Trade` row (no user or strategy id is set). -/
def execute_trade (cfg : GoldConfig) (broker : GoldBroker) (side : String)
    (now : ℕ) : BrokerPosition × Trade :=
  let position_size :=
    calculate_position_size cfg broker.account_balance broker.gold_price
  let current_price := broker.gold_price
  let ep := calculate_exit_prices cfg current_price side
  (⟨broker.nextPositionId, side, current_price⟩,
   { user_id := none
     strategy_id := none
     symbol := "XAUUSD"
     order_type := "MARKET"
     status := "EXECUTED"
     entry_price := current_price
     exit_price := none
     quantity := position_size
     take_profit := some ep.2
     stop_loss := some ep.1
     profit_loss := none
     entry_time := now
     exit_time := none })

/-- The position loop of `run` (lines 356-365): every open position
whose exit conditions hold is closed through `modify_position` and
leaves the broker's open set; the others remain. -/
def runExitLoop (cfg : GoldConfig) (bars : Bars) :
    List BrokerPosition → Except PyErr (List BrokerPosition)
  | [] => Except.ok []
  | p :: ps => do
      let close ← check_exit_conditions cfg p bars
      let rest ← runExitLoop cfg bars ps
      if close then return rest else return (p :: rest)

/-- `run` (lines 341-378): with open positions, only the exit loop runs;
with none, the entry conditions are checked and at most one order is
executed. Returns the broker's open positions afterwards and the
inserted trade, if any; errors propagate (`run` re-raises). -/
def run (cfg : GoldConfig) (broker : GoldBroker)
    (open_positions : List BrokerPosition) (bars : Bars) (now : ℕ) :
    Except PyErr (List BrokerPosition × Option Trade) := do
  if open_positions.isEmpty = false then
    let remaining ← runExitLoop cfg bars open_positions
    return (remaining, none)
  else
    let ec ← check_entry_conditions bars
    match ec with
    | (true, some side) =>
        let r := execute_trade cfg broker side now
        return ([r.1], some r.2)
    | _ => return ([], none)

end GoldStrategy

/-- Whether the store holds an open trade for a given strategy and
symbol (the claim's notion of "the strategy has an open position"). -/
def hasOpenTradeFor (db : EngineDB) (sid : ℕ) (sym : String) : Bool :=
  db.trades.any (fun t =>
    TradingEngine.isOpenTrade t && t.strategy_id == some sid &&
    t.symbol == sym)

/-- The position-size formula exactly as the claim words it: the minimum
of the lot cap and (balance × slp/100) / (price × slp/100). -/
def claimedPositionSize (cap balance price slp : ℚ) : ℚ :=
  min cap ((balance * (slp / 100)) / (price * (slp / 100)))

/-! ## Concrete inputs used by witnesses and counterexamples -/

/-- A strategy row: lot cap 10, stop-loss 1.5 %, max daily loss 5,
fast EMA period 3, slow EMA period 1, RSI period 2, thresholds 70/30. -/
def exStrategy : Strategy :=
  { id := 1, user_id := 1, name := "gold-1", symbol := "XAUUSD",
    timeframe := "1h", is_active := true, position_size := 10,
    stop_loss_percent := 3 / 2, take_profit_percent := 3,
    max_daily_loss := 5, fast_ema := 3, slow_ema := 1, rsi_period := 2,
    rsi_overbought := 70, rsi_oversold := 30 }

/-- A trade of strategy 1 that exited today (day 3) at −6. -/
def exLossTrade : Trade :=
  { user_id := some 1, strategy_id := some 1, symbol := "XAUUSD",
    order_type := "MARKET", status := "EXECUTED", entry_price := 100,
    exit_price := some 94, quantity := 1, take_profit := some 110,
    stop_loss := some 95, profit_loss := some (-6), entry_time := 2,
    exit_time := some 3 }

/-- The same trade with a +6 result instead. -/
def exProfitTrade : Trade := { exLossTrade with profit_loss := some 6 }

/-- An open trade (status EXECUTED, no exit) bracketed at stop 95 and
target 110 from entry 100. -/
def exOpenTrade : Trade :=
  { user_id := some 1, strategy_id := some 1, symbol := "XAUUSD",
    order_type := "MARKET", status := "EXECUTED", entry_price := 100,
    exit_price := none, quantity := 1, take_profit := some 110,
    stop_loss := some 95, profit_loss := none, entry_time := 0,
    exit_time := none }

/-- The row of a position opened by a SELL order: entry 100, quantity 2
(the table stores no side). -/
def exSellOrderTrade : Trade := { exOpenTrade with quantity := 2 }

/-- Four rising bars; with RSI period 2 the latest RSI is 100. -/
def exBars : Bars :=
  { timestamps := [0, 1, 2, 3], opens := [1, 2, 3, 4],
    highs := [1, 2, 3, 4], lows := [1, 2, 3, 4], closes := [1, 2, 3, 4],
    volumes := [1, 1, 1, 1] }

/-- A broker quoting price 4, serving `exBars`, balance 10000. -/
def exBroker : Broker :=
  { price := fun _ => 4, marketData := fun _ _ => exBars, balance := 10000 }

/-- Store contents: the strategy together with an open trade of the
same strategy and symbol. -/
def exDB : EngineDB := { strategies := [exStrategy], trades := [exOpenTrade] }

/-- Gold-strategy configuration: lot cap 0.016, stop-loss 1.5 %,
take-profit 3 %. -/
def exGoldConfig : GoldConfig :=
  { position_size := 2 / 125, stop_loss_percent := 3 / 2,
    take_profit_percent := 3 }

/-- Gold broker snapshot: balance 10000, gold price 2000. -/
def exGoldBroker : GoldBroker :=
  { account_balance := 10000, gold_price := 2000, nextPositionId := 7 }

/-- A running engine singleton. -/
def exRunningEngine : TradingEngine.EngineState :=
  { running := true, strategies := [], active_trades := [],
    workerThread := some 1 }

/-! ## Shared lemmas about the risk gate -/

theorem weekly_loss_raises (s : Strategy) (trades : List Trade)
    (today : ℕ) :
    TradingEngine.calculate_weekly_loss s trades today =
      Except.error PyErr.nameError := by
  unfold TradingEngine.calculate_weekly_loss
  rw [if_neg]
  decide

theorem orderStatusAttr_CLOSED :
    orderStatusAttr "CLOSED" = Except.error PyErr.attributeError := by
  unfold orderStatusAttr
  rw [if_neg]
  decide

theorem check_risk_limits_false (s : Strategy) (trades : List Trade)
    (today : ℕ) :
    TradingEngine.check_risk_limits s trades today = false := by
  unfold TradingEngine.check_risk_limits TradingEngine.riskLimitsExc
  rw [weekly_loss_raises]
  by_cases h :
    s.max_daily_loss ≤ |TradingEngine.calculate_daily_loss s trades today|
  · simp [h, pure, Except.pure]
  · simp [h, Bind.bind, Except.bind, pure, Except.pure]

theorem execute_trade_no_order (s : Strategy) (signal : String)
    (broker : Broker) (trades : List Trade) (today now : ℕ) :
    TradingEngine.execute_trade s signal broker trades today now =
      ⟨false, none⟩ := by
  simp [TradingEngine.execute_trade, check_risk_limits_false]

theorem process_strategies_no_orders (db : EngineDB) (broker : Broker)
    (today now : ℕ) :
    (TradingEngine.process_strategies db broker today now).all
      (fun r => r.orderPlaced == false) = true := by
  unfold TradingEngine.process_strategies
  rw [List.all_eq_true]
  intro r hr
  obtain ⟨s, hs, rfl⟩ := List.mem_map.mp hr
  cases h :
      TradingEngine.computeIndicators s
        (broker.marketData s.symbol s.timeframe) with
  | error e => simp [h]
  | ok ind =>
      cases hsig : TradingEngine.generate_signal s ind with
      | none => simp [h, hsig]
      | some sig => simp [h, hsig, execute_trade_no_order]

/-! ## Claim theorems -/

/-- C9: for every strategy and store state the engine's risk-limit check
returns False: the weekly-loss computation raises NameError because
`timedelta` is not a bound name of the module, `_check_risk_limits`
catches the error and denies trading, and consequently no iteration of
the batch loop ever places an order. -/
theorem risk_check_always_rejects :
    (∀ (s : Strategy) (trades : List Trade) (today : ℕ),
      TradingEngine.calculate_weekly_loss s trades today =
        Except.error PyErr.nameError) ∧
    (∀ (s : Strategy) (trades : List Trade) (today : ℕ),
      TradingEngine.check_risk_limits s trades today = false) ∧
    (∀ (db : EngineDB) (broker : Broker) (today now : ℕ),
      (TradingEngine.process_strategies db broker today now).all
        (fun r => r.orderPlaced == false) = true) :=
  ⟨weekly_loss_raises, check_risk_limits_false, process_strategies_no_orders⟩

/-- C1: when a strategy's trades closed today sum to a realized loss of
magnitude at least `max_daily_loss`, the risk gate rejects — its daily
branch itself returns False, before any exception — and
`_execute_trade` returns without placing an order, for every signal. -/
theorem daily_loss_blocks_trading (s : Strategy) (trades : List Trade)
    (today now : ℕ) (broker : Broker) (signal : String)
    (hloss : TradingEngine.calculate_daily_loss s trades today ≤ 0)
    (hmag : s.max_daily_loss ≤
      |TradingEngine.calculate_daily_loss s trades today|) :
    TradingEngine.riskLimitsExc s trades today = Except.ok false ∧
    TradingEngine.check_risk_limits s trades today = false ∧
    TradingEngine.execute_trade s signal broker trades today now =
      ⟨false, none⟩ := by
  refine ⟨?_, check_risk_limits_false s trades today,
    execute_trade_no_order s signal broker trades today now⟩
  unfold TradingEngine.riskLimitsExc
  simp [hmag, pure, Except.pure]

theorem daily_loss_blocks_trading_witness :
    TradingEngine.calculate_daily_loss exStrategy [exLossTrade] 3 ≤ 0 ∧
    exStrategy.max_daily_loss ≤
      |TradingEngine.calculate_daily_loss exStrategy [exLossTrade] 3| ∧
    TradingEngine.execute_trade exStrategy "BUY" exBroker [exLossTrade]
      3 4 = ⟨false, none⟩ :=
  ⟨by norm_num [TradingEngine.calculate_daily_loss, exStrategy, exLossTrade],
   by norm_num [TradingEngine.calculate_daily_loss, exStrategy, exLossTrade],
   (daily_loss_blocks_trading exStrategy [exLossTrade] 3 4 exBroker "BUY"
      (by norm_num [TradingEngine.calculate_daily_loss, exStrategy, exLossTrade])
      (by norm_num [TradingEngine.calculate_daily_loss, exStrategy,
        exLossTrade])).2.2⟩

/-- C10: the daily gate compares the absolute value of the day's
realized PnL, so a day's cumulative profit of at least `max_daily_loss`
is rejected exactly like a loss of that magnitude: the daily branch
returns False and no order is placed. -/
theorem daily_profit_blocks_trading (s : Strategy) (trades : List Trade)
    (today now : ℕ) (broker : Broker) (signal : String)
    (hprof : s.max_daily_loss ≤
      TradingEngine.calculate_daily_loss s trades today) :
    TradingEngine.riskLimitsExc s trades today = Except.ok false ∧
    TradingEngine.check_risk_limits s trades today = false ∧
    TradingEngine.execute_trade s signal broker trades today now =
      ⟨false, none⟩ := by
  refine ⟨?_, check_risk_limits_false s trades today,
    execute_trade_no_order s signal broker trades today now⟩
  unfold TradingEngine.riskLimitsExc
  have hmag : s.max_daily_loss ≤
      |TradingEngine.calculate_daily_loss s trades today| :=
    hprof.trans (le_abs_self _)
  simp [hmag, pure, Except.pure]

theorem daily_profit_blocks_trading_witness :
    exStrategy.max_daily_loss ≤
      TradingEngine.calculate_daily_loss exStrategy [exProfitTrade] 3 ∧
    TradingEngine.execute_trade exStrategy "BUY" exBroker [exProfitTrade]
      3 4 = ⟨false, none⟩ :=
  ⟨by norm_num [TradingEngine.calculate_daily_loss, exStrategy,
      exLossTrade, exProfitTrade],
   (daily_profit_blocks_trading exStrategy [exProfitTrade] 3 4 exBroker
      "BUY" (by norm_num [TradingEngine.calculate_daily_loss, exStrategy,
        exLossTrade, exProfitTrade])).2.2⟩

/-- C8: calling `start` while the engine is already running changes
nothing — the whole state (running flag, worker thread, strategies,
active trades) is returned unchanged and no new worker identifier is
stored. -/
theorem start_noop_when_running (s : TradingEngine.EngineState)
    (tid : ℕ) (h : s.running = true) :
    TradingEngine.start s tid = s := by
  unfold TradingEngine.start
  rw [h]
  simp

theorem start_noop_when_running_witness :
    TradingEngine.start exRunningEngine 2 = exRunningEngine :=
  start_noop_when_running exRunningEngine 2 rfl

/-- C6: evaluating `_close_trade` at a position opened by a SELL order
(entry 100, quantity 2) with exit price 90: the computed PnL is
(exit − entry)·qty = −20 with no sign flip, and the record update is
rolled back — the `OrderStatus.CLOSED` attribute access raises — so no
exit data is stored at all, against the claim's +20. -/
theorem close_trade_no_sign_flip_and_rollback :
    TradingEngine.trade_profit_loss exSellOrderTrade 90 = -20 ∧
    TradingEngine.close_trade_txn exSellOrderTrade 90 5 =
      Except.error PyErr.attributeError ∧
    TradingEngine.close_trade exSellOrderTrade 90 5 =
      ⟨true, exSellOrderTrade, true⟩ := by
  refine ⟨?_, ?_, ?_⟩ <;>
    norm_num [TradingEngine.trade_profit_loss, TradingEngine.close_trade,
      TradingEngine.close_trade_txn, orderStatusAttr_CLOSED, Bind.bind,
      Except.bind, exSellOrderTrade, exOpenTrade]

/-- C5: at the open BUY-bracketed position (stop 95, target 110) with
price 94 the sweep requests a broker close, but the row never leaves the
open-position query — the enum lookup raises and the transaction rolls
back — and a second sweep requests a broker close again: the position is
not closed exactly once and re-sweeping is not a no-op. -/
theorem sweep_does_not_close_exactly_once :
    TradingEngine.isOpenTrade exOpenTrade = true ∧
    TradingEngine.should_close_trade exOpenTrade 94 = true ∧
    TradingEngine.monitor_trades [exOpenTrade] (fun _ => 94) 5 =
      ⟨[exOpenTrade], ["XAUUSD"]⟩ ∧
    TradingEngine.monitor_trades [exOpenTrade] (fun _ => 94) 6 =
      ⟨[exOpenTrade], ["XAUUSD"]⟩ ∧
    orderStatusAttr "CLOSED" = Except.error PyErr.attributeError := by
  refine ⟨?_, ?_, ?_, ?_, orderStatusAttr_CLOSED⟩ <;>
    norm_num [TradingEngine.monitor_trades, TradingEngine.isOpenTrade,
      TradingEngine.should_close_trade, TradingEngine.optQTruthy,
      TradingEngine.close_trade, TradingEngine.close_trade_txn,
      orderStatusAttr_CLOSED, Bind.bind, Except.bind, exOpenTrade]

/-- C4 fails as stated: with cap 0.016, balance 10000, price 2000 and
stop-loss 1.5 % the gold-strategy size is 0.02 — above the cap and
different from the claimed minimum 0.016 — and the engine-loop size is
min(cap, balance/100) = 10 where the claimed formula gives 5. -/
theorem position_size_claim_fails :
    GoldStrategy.calculate_position_size exGoldConfig 10000 2000 =
      1 / 50 ∧
    exGoldConfig.position_size = 2 / 125 ∧
    ¬ (GoldStrategy.calculate_position_size exGoldConfig 10000 2000 ≤
        exGoldConfig.position_size) ∧
    claimedPositionSize exGoldConfig.position_size 10000 2000
      exGoldConfig.stop_loss_percent = 2 / 125 ∧
    TradingEngine.calculate_position_size exStrategy 10000 = 10 ∧
    claimedPositionSize exStrategy.position_size 10000 2000
      exStrategy.stop_loss_percent = 5 := by
  refine ⟨?_, ?_, ?_, ?_, ?_, ?_⟩ <;>
    norm_num [GoldStrategy.calculate_position_size,
      TradingEngine.calculate_position_size, claimedPositionSize,
      pyRound2, roundHalfEven, exGoldConfig, exStrategy]

theorem roundHalfEven_le_add_half (x : ℚ) :
    (roundHalfEven x : ℚ) ≤ x + 1 / 2 := by
  have h0 : ((Int.floor x : ℤ) : ℚ) ≤ x := Int.floor_le x
  simp only [roundHalfEven]
  split_ifs with h1 h2 h3 <;> push_cast <;> linarith

theorem pyRound2_le_add (x : ℚ) : pyRound2 x ≤ x + 1 / 200 := by
  unfold pyRound2
  have h := roundHalfEven_le_add_half (x * 100)
  linarith

/-- C4 amended: for positive balance, price and stop-loss percent, the
engine-loop size equals min(cap, balance/100) — its denominator is the
bare stop-loss percent, which cancels — and never exceeds the cap; the
gold-strategy size equals the claimed minimum rounded half-even to two
decimals, and therefore exceeds the cap by at most 1/200. -/
theorem position_size_amended (s : Strategy) (cfg : GoldConfig)
    (balance price : ℚ) (hs : 0 < s.stop_loss_percent)
    (hc : 0 < cfg.stop_loss_percent) (hp : 0 < price) (hb : 0 < balance) :
    TradingEngine.calculate_position_size s balance =
      min s.position_size (balance / 100) ∧
    TradingEngine.calculate_position_size s balance ≤ s.position_size ∧
    GoldStrategy.calculate_position_size cfg balance price =
      pyRound2 (claimedPositionSize cfg.position_size balance price
        cfg.stop_loss_percent) ∧
    GoldStrategy.calculate_position_size cfg balance price ≤
      cfg.position_size + 1 / 200 := by
  have hs' : s.stop_loss_percent ≠ 0 := ne_of_gt hs
  have heq : balance * (s.stop_loss_percent / 100) / s.stop_loss_percent
      = balance / 100 := by
    field_simp
    ring
  have hden : price * cfg.stop_loss_percent / 100 =
      price * (cfg.stop_loss_percent / 100) := by ring
  have hgold : GoldStrategy.calculate_position_size cfg balance price =
      pyRound2 (claimedPositionSize cfg.position_size balance price
        cfg.stop_loss_percent) := by
    simp only [GoldStrategy.calculate_position_size, claimedPositionSize]
    rw [hden, min_comm]
  refine ⟨?_, ?_, hgold, ?_⟩
  · simp only [TradingEngine.calculate_position_size]
    rw [heq]
  · simp only [TradingEngine.calculate_position_size]
    exact min_le_left _ _
  · rw [hgold]
    calc pyRound2 (claimedPositionSize cfg.position_size balance price
          cfg.stop_loss_percent) ≤
        claimedPositionSize cfg.position_size balance price
          cfg.stop_loss_percent + 1 / 200 := pyRound2_le_add _
      _ ≤ cfg.position_size + 1 / 200 := by
          have := min_le_left cfg.position_size
            ((balance * (cfg.stop_loss_percent / 100)) /
              (price * (cfg.stop_loss_percent / 100)))
          unfold claimedPositionSize
          linarith

theorem getLast?_cons_isSome {α : Type} (l : List α) (c : α) :
    ∃ e, (c :: l).getLast? = some e := by
  induction l generalizing c with
  | nil => exact ⟨c, rfl⟩
  | cons d t ih => simpa [List.getLast?_cons_cons] using ih d

theorem emaLast_isSome (p : ℕ) (closes : List ℚ) (h : closes ≠ []) :
    ∃ e, emaLast p closes = some e := by
  unfold emaLast
  cases closes with
  | nil => exact absurd rfl h
  | cons c cs =>
      simp only [calculate_ema]
      exact getLast?_cons_isSome _ c

/-- C7: with any non-empty price series, `check_trend` returns UPTREND
exactly when EMA(9) > EMA(21) > EMA(50) strictly at the latest bar,
DOWNTREND exactly when the reversed strict chain holds, NEUTRAL in
every other case, and any tie among the three EMAs yields NEUTRAL. -/
theorem check_trend_characterization (closes : List ℚ)
    (h : closes ≠ []) :
    ∃ e9 e21 e50,
      emaLast 9 closes = some e9 ∧ emaLast 21 closes = some e21 ∧
      emaLast 50 closes = some e50 ∧
      (check_trend closes = some "UPTREND" ↔ e21 < e9 ∧ e50 < e21) ∧
      (check_trend closes = some "DOWNTREND" ↔ e9 < e21 ∧ e21 < e50) ∧
      (check_trend closes = some "NEUTRAL" ↔
        ¬(e21 < e9 ∧ e50 < e21) ∧ ¬(e9 < e21 ∧ e21 < e50)) ∧
      ((e9 = e21 ∨ e21 = e50) → check_trend closes = some "NEUTRAL") := by
  obtain ⟨e9, h9⟩ := emaLast_isSome 9 closes h
  obtain ⟨e21, h21⟩ := emaLast_isSome 21 closes h
  obtain ⟨e50, h50⟩ := emaLast_isSome 50 closes h
  refine ⟨e9, e21, e50, h9, h21, h50, ?_, ?_, ?_, ?_⟩
  all_goals unfold check_trend
  all_goals simp only [h9, h21, h50]
  · split_ifs with h1 h2
    · exact iff_of_true rfl h1
    · exact iff_of_false (by decide) h1
    · exact iff_of_false (by decide) h1
  · split_ifs with h1 h2
    · exact iff_of_false (by decide) (fun hdn => lt_asymm h1.1 hdn.1)
    · exact iff_of_true rfl h2
    · exact iff_of_false (by decide) h2
  · split_ifs with h1 h2
    · exact iff_of_false (by decide) (fun hn => hn.1 h1)
    · exact iff_of_false (by decide) (fun hn => hn.2 h2)
    · exact iff_of_true rfl ⟨h1, h2⟩
  · split_ifs with h1 h2
    · intro he
      exfalso
      obtain ⟨ha, hb⟩ := h1
      rcases he with he | he <;> linarith
    · intro he
      exfalso
      obtain ⟨ha, hb⟩ := h2
      rcases he with he | he <;> linarith
    · intro he
      rfl

theorem check_trend_characterization_witness :
    check_trend [1, 2, 4] = some "UPTREND" := by
  obtain ⟨e9, e21, e50, h9, h21, h50, hup, -, -, -⟩ :=
    check_trend_characterization [1, 2, 4] (by decide)
  have v9 : emaLast 9 [1, 2, 4] = some (44 / 25) := by
    norm_num [emaLast, calculate_ema, emaGo]
  have v21 : emaLast 21 [1, 2, 4] = some (164 / 121) := by
    norm_num [emaLast, calculate_ema, emaGo]
  have v50 : emaLast 50 [1, 2, 4] = some (3005 / 2601) := by
    norm_num [emaLast, calculate_ema, emaGo]
  rw [v9] at h9
  rw [v21] at h21
  rw [v50] at h50
  obtain rfl := (Option.some.injEq _ _).mp h9.symm
  obtain rfl := (Option.some.injEq _ _).mp h21.symm
  obtain rfl := (Option.some.injEq _ _).mp h50.symm
  exact hup.mpr ⟨by norm_num, by norm_num⟩

theorem mem_zipWith_nonneg {f : ℚ → ℚ → ℚ} (hf : ∀ a b, 0 ≤ f a b)
    {l1 l2 : List ℚ} {x : ℚ} (hx : x ∈ List.zipWith f l1 l2) : 0 ≤ x := by
  induction l1 generalizing l2 with
  | nil => simp at hx
  | cons a t ih =>
      cases l2 with
      | nil => simp at hx
      | cons b t2 =>
          simp only [List.zipWith_cons_cons, List.mem_cons] at hx
          rcases hx with rfl | hx
          · exact hf a b
          · exact ih hx

theorem gainsOf_nonneg (closes : List ℚ) : ∀ x ∈ gainsOf closes, 0 ≤ x := by
  cases closes with
  | nil => simp [gainsOf]
  | cons c cs =>
      intro x hx
      simp only [gainsOf, List.mem_cons] at hx
      rcases hx with rfl | hx
      · exact le_refl 0
      · exact mem_zipWith_nonneg (fun a b => le_max_right _ _) hx

theorem lossesOf_nonneg (closes : List ℚ) : ∀ x ∈ lossesOf closes, 0 ≤ x := by
  cases closes with
  | nil => simp [lossesOf]
  | cons c cs =>
      intro x hx
      simp only [lossesOf, List.mem_cons] at hx
      rcases hx with rfl | hx
      · exact le_refl 0
      · exact mem_zipWith_nonneg (fun a b => le_max_right _ _) hx

theorem list_sum_nonneg (l : List ℚ) (h : ∀ x ∈ l, 0 ≤ x) :
    0 ≤ l.sum := by
  induction l with
  | nil => simp
  | cons a t ih =>
      simp only [List.sum_cons]
      have h1 := h a (by simp)
      have h2 := ih (fun x hx => h x (by simp [hx]))
      linarith

theorem mem_take_drop {α : Type} {x : α} {k p : ℕ} {xs : List α}
    (hx : x ∈ (xs.drop k).take p) : x ∈ xs :=
  List.drop_subset k xs (List.take_subset p (xs.drop k) hx)

theorem rollingMeanAt_nonneg {p : ℕ} {xs : List ℚ} {i : ℕ}
    (hxs : ∀ x ∈ xs, 0 ≤ x) {q : ℚ}
    (hq : rollingMeanAt p xs i = PVal.val q) : 0 ≤ q := by
  unfold rollingMeanAt at hq
  split_ifs at hq
  have hq' : ((xs.drop (i + 1 - p)).take p).sum / (p : ℚ) = q :=
    (PVal.val.injEq _ _).mp hq
  have hsum : 0 ≤ ((xs.drop (i + 1 - p)).take p).sum :=
    list_sum_nonneg _ (fun x hx => hxs x (mem_take_drop hx))
  rw [← hq']
  exact div_nonneg hsum (by positivity)

theorem rollingMeanAt_cases (p : ℕ) (xs : List ℚ) (i : ℕ) :
    rollingMeanAt p xs i = PVal.nan ∨
    ∃ q, rollingMeanAt p xs i = PVal.val q := by
  unfold rollingMeanAt
  split_ifs
  · exact Or.inr ⟨_, rfl⟩
  · exact Or.inl rfl

theorem rsi_defined_bounds_core {a b q : ℚ} (ha : 0 ≤ a) (hb : 0 ≤ b)
    (h : (PVal.val 100).sub ((PVal.val 100).div ((PVal.val 1).add
      ((PVal.val a).div (PVal.val b)))) = PVal.val q) :
    0 ≤ q ∧ q ≤ 100 := by
  by_cases hb0 : b = 0
  · subst hb0
    by_cases ha0 : a = 0
    · subst ha0
      simp [PVal.div, PVal.add, PVal.sub, PVal.neg] at h
    · have hapos : 0 < a := lt_of_le_of_ne ha (Ne.symm ha0)
      simp [PVal.div, ha0, hapos, PVal.add, PVal.sub, PVal.neg] at h
      exact ⟨by linarith, by linarith⟩
  · have hbpos : 0 < b := lt_of_le_of_ne hb (Ne.symm hb0)
    have hr : 0 ≤ a / b := div_nonneg ha hb
    have hne : 1 + a / b ≠ 0 := by positivity
    simp [PVal.div, hb0, hne, PVal.add, PVal.sub, PVal.neg] at h
    have hpos : (0 : ℚ) < 1 + a / b := by linarith
    have h1 : 100 / (1 + a / b) ≤ 100 := by
      rw [div_le_iff₀ hpos]
      nlinarith
    have h2 : 0 ≤ 100 / (1 + a / b) := by positivity
    exact ⟨by linarith, by linarith⟩

/-- C3 fails as stated: on the flat series [5, 5, 5] with period 2 the
trailing average loss at the last index is 0, yet the RSI there is NaN
(the 0/0 of `rs = gain/loss` — there is no zero-division guard), not a
defined value 100. -/
theorem rsi_zero_loss_claim_fails :
    avgLossAt 2 [5, 5, 5] 2 = PVal.val 0 ∧
    avgGainAt 2 [5, 5, 5] 2 = PVal.val 0 ∧
    rsiAt 2 [5, 5, 5] 2 = PVal.nan ∧
    calculate_rsi 2 [5, 5, 5] = [PVal.nan, PVal.nan, PVal.nan] := by
  refine ⟨?_, ?_, ?_, ?_⟩ <;>
    norm_num [avgLossAt, avgGainAt, rsiAt, rollingMeanAt, gainsOf,
      lossesOf, calculate_rsi, PVal.div, PVal.add, PVal.sub, PVal.neg,
      List.range_succ]

/-- C3 amended: every defined RSI value lies in [0, 100]; when the
trailing average loss is 0 the RSI is 100 if the average gain is
positive, but NaN — undefined — if the average gain is 0 as well: the
value 100 arises from IEEE division (finite/0 = ∞), not from an
explicit zero-division guard. -/
theorem rsi_range_and_zero_loss (period : ℕ) (closes : List ℚ)
    (i : ℕ) :
    (∀ q : ℚ, rsiAt period closes i = PVal.val q → 0 ≤ q ∧ q ≤ 100) ∧
    (∀ g : ℚ, avgLossAt period closes i = PVal.val 0 →
      avgGainAt period closes i = PVal.val g → 0 < g →
      rsiAt period closes i = PVal.val 100) ∧
    (avgLossAt period closes i = PVal.val 0 →
      avgGainAt period closes i = PVal.val 0 →
      rsiAt period closes i = PVal.nan) := by
  refine ⟨?_, ?_, ?_⟩
  · intro q h
    rcases rollingMeanAt_cases period (gainsOf closes) i with hg | ⟨a, hg⟩
    · simp only [rsiAt, avgGainAt, avgLossAt, hg] at h
      simp [PVal.div, PVal.add, PVal.sub, PVal.neg] at h
    · rcases rollingMeanAt_cases period (lossesOf closes) i with
        hl | ⟨b, hl⟩
      · simp only [rsiAt, avgGainAt, avgLossAt, hg, hl] at h
        simp [PVal.div, PVal.add, PVal.sub, PVal.neg] at h
      · have ha : 0 ≤ a := rollingMeanAt_nonneg (gainsOf_nonneg closes) hg
        have hb : 0 ≤ b :=
          rollingMeanAt_nonneg (lossesOf_nonneg closes) hl
        simp only [rsiAt, avgGainAt, avgLossAt, hg, hl] at h
        exact rsi_defined_bounds_core ha hb h
  · intro g hl hg hpos
    simp only [rsiAt, avgGainAt, avgLossAt] at hl hg ⊢
    rw [hl, hg]
    simp [PVal.div, PVal.add, PVal.sub, PVal.neg, ne_of_gt hpos, hpos]
  · intro hl hg
    simp only [rsiAt, avgGainAt, avgLossAt] at hl hg ⊢
    rw [hl, hg]
    simp [PVal.div, PVal.add, PVal.sub, PVal.neg]

theorem rsi_range_and_zero_loss_witness :
    rsiAt 2 [1, 2, 3, 4] 3 = PVal.val 100 :=
  (rsi_range_and_zero_loss 2 [1, 2, 3, 4] 3).2.1 1
    (by norm_num [avgLossAt, rollingMeanAt, lossesOf])
    (by norm_num [avgGainAt, rollingMeanAt, gainsOf])
    (by norm_num)

/-- C2 fails as stated: with the store holding an open trade for
(strategy 1, XAUUSD), `_process_strategies` still evaluates the entry
rule for that strategy — the batch loop consults no open-position state
— and produces the signal SELL (the order is then stopped only by the
always-rejecting risk gate, not by any open-position check). -/
theorem entry_rule_evaluated_with_open_position :
    hasOpenTradeFor exDB 1 "XAUUSD" = true ∧
    (TradingEngine.process_strategies exDB exBroker 0 1).map
      (fun r => (r.sid, r.signal)) = [(1, some "SELL")] := by
  constructor
  · norm_num [hasOpenTradeFor, TradingEngine.isOpenTrade, exDB,
      exOpenTrade, exStrategy]
  · norm_num [TradingEngine.process_strategies,
      TradingEngine.computeIndicators, TradingEngine.generate_signal,
      pvalLtQ, pvalGtQ, PVal.ltb, PVal.gtb, emaLast, calculate_ema,
      emaGo, calculate_rsi, rsiAt, avgGainAt, avgLossAt, rollingMeanAt,
      gainsOf, lossesOf, PVal.div, PVal.add, PVal.sub, PVal.neg,
      List.range_succ, exDB, exBroker, exBars, exStrategy]

theorem runExitLoop_length_le (cfg : GoldConfig) (bars : Bars) :
    ∀ ps qs : List BrokerPosition,
      GoldStrategy.runExitLoop cfg bars ps = Except.ok qs →
      qs.length ≤ ps.length := by
  intro ps
  induction ps with
  | nil =>
      intro qs h
      simp only [GoldStrategy.runExitLoop] at h
      cases h
      simp
  | cons p t ih =>
      intro qs h
      simp only [GoldStrategy.runExitLoop, Bind.bind, Except.bind] at h
      cases hc : GoldStrategy.check_exit_conditions cfg p bars with
      | error e => rw [hc] at h; simp at h
      | ok c =>
          rw [hc] at h
          cases hr : GoldStrategy.runExitLoop cfg bars t with
          | error e => rw [hr] at h; simp at h
          | ok rest =>
              rw [hr] at h
              cases c with
              | true =>
                  simp only [if_true, pure, Except.pure, Except.ok.injEq]
                    at h
                  subst h
                  exact (ih rest hr).trans (Nat.le_succ _)
              | false =>
                  simp only [if_false, pure, Except.pure,
                    Except.ok.injEq, Bool.false_eq_true] at h
                  subst h
                  simpa using ih rest hr

/-- C2 amended: the only-with-no-open-position entry guard belongs to
`GoldStrategy.run`, which checks entry conditions only when the broker
reports no open position and opens at most one, so a run never raises
the open-position count above one; the batch engine loop evaluates the
entry rule regardless of open positions, but places no orders at all
(its risk gate always rejects), so it cannot create a second open
position either. -/
theorem at_most_one_open_position (db : EngineDB) (broker : Broker)
    (today now : ℕ) (cfg : GoldConfig) (gb : GoldBroker)
    (ps : List BrokerPosition) (bars : Bars) (gnow : ℕ)
    (res : List BrokerPosition × Option Trade)
    (hrun : GoldStrategy.run cfg gb ps bars gnow = Except.ok res)
    (hlen : ps.length ≤ 1) :
    (TradingEngine.process_strategies db broker today now).all
      (fun r => r.orderPlaced == false) = true ∧
    res.1.length ≤ 1 := by
  refine ⟨process_strategies_no_orders db broker today now, ?_⟩
  unfold GoldStrategy.run at hrun
  by_cases hps : ps.isEmpty = false
  · rw [if_pos hps] at hrun
    simp only [Bind.bind, Except.bind] at hrun
    cases hr : GoldStrategy.runExitLoop cfg bars ps with
    | error e => rw [hr] at hrun; simp at hrun
    | ok remaining =>
        rw [hr] at hrun
        simp only [pure, Except.pure, Except.ok.injEq] at hrun
        subst hrun
        exact (runExitLoop_length_le cfg bars ps remaining hr).trans hlen
  · rw [if_neg hps] at hrun
    simp only [Bind.bind, Except.bind] at hrun
    cases he : GoldStrategy.check_entry_conditions bars with
    | error e => rw [he] at hrun; simp at hrun
    | ok ec =>
        rw [he] at hrun
        rcases ec with ⟨b, side⟩
        cases b with
        | false =>
            cases side with
            | none =>
                simp only [pure, Except.pure, Except.ok.injEq] at hrun
                subst hrun
                simp
            | some s =>
                simp only [pure, Except.pure, Except.ok.injEq] at hrun
                subst hrun
                simp
        | true =>
            cases side with
            | none =>
                simp only [pure, Except.pure, Except.ok.injEq] at hrun
                subst hrun
                simp
            | some s =>
                simp only [pure, Except.pure, Except.ok.injEq] at hrun
                subst hrun
                simp

theorem at_most_one_open_position_witness :
    ((TradingEngine.process_strategies exDB exBroker 0 1).all
      (fun r => r.orderPlaced == false) = true) ∧
    (([] : List BrokerPosition).length ≤ 1) :=
  have hrun : GoldStrategy.run exGoldConfig exGoldBroker [] exBars 9 =
      Except.ok ([], none) := by
    norm_num [GoldStrategy.run, GoldStrategy.check_entry_conditions,
      GoldStrategy.check_support_resistance, calculate_support_resistance,
      centeredRollingMaxAt, centeredRollingMinAt, sliceMaxVal, sliceMinVal,
      check_trend, emaLast, calculate_ema, emaGo, calculate_rsi, rsiAt,
      avgGainAt, avgLossAt, rollingMeanAt, gainsOf, lossesOf,
      calculate_macd, calculate_bollinger_middle, rollingMean,
      pvalLtQ, pvalGtQ, PVal.ltb, PVal.gtb, PVal.div, PVal.add, PVal.sub,
      PVal.neg, List.range_succ, Bind.bind, Except.bind, pure,
      Except.pure, exGoldConfig, exGoldBroker, exBars]
  at_most_one_open_position exDB exBroker 0 1 exGoldConfig exGoldBroker
    [] exBars 9 ([], none) hrun (by simp)

theorem position_size_amended_witness :
    (0 : ℚ) < exStrategy.stop_loss_percent ∧
    (0 : ℚ) < exGoldConfig.stop_loss_percent ∧
    GoldStrategy.calculate_position_size exGoldConfig 10000 2000 ≤
      exGoldConfig.position_size + 1 / 200 :=
  ⟨by norm_num [exStrategy], by norm_num [exGoldConfig],
   (position_size_amended exStrategy exGoldConfig 10000 2000
      (by norm_num [exStrategy]) (by norm_num [exGoldConfig])
      (by norm_num) (by norm_num)).2.2.2⟩

end GoldTrader
